import Mathlib

/-!
Shallow embedding of the client-side session orchestrator in `src/quic.ts`
(`src/unnamed/part_000`): capability gate (`checkEnvironment`), diagnostic
classifier (`log`, `Module.print`, `Module.printErr`), implicit session state
(status pill + loading overlay), connection counter with badge fan-out
(`updateBadge`), auxiliary-view spawns (`window.open`), and the start button
(`startServer`, `script.onerror`).

Strings are modelled with Lean `String`; the regular-expression tests of the
source are modelled as substring / prefix / suffix tests over `List Char`
(every pattern in the source is a literal alternation, so `RegExp.test` is
exactly "some alternative occurs as a substring", with `^`/`$` anchoring as
prefix/suffix). The `i` flag is modelled by ASCII-lowercasing the message
first; all pattern alphabets in the source are ASCII.
-/

/-- ASCII lower-casing of one character (models the `i` regex flag; all
source patterns are ASCII). -/
def lcChar (c : Char) : Char :=
  if 65 ≤ c.toNat ∧ c.toNat ≤ 90 then Char.ofNat (c.toNat + 32) else c

/-- Lower-case a character list. -/
def lcList (l : List Char) : List Char := l.map lcChar

/-- Boolean prefix test on character lists. -/
def isPrefixB : List Char → List Char → Bool
  | [], _ => true
  | _ :: _, [] => false
  | p :: ps, c :: cs => p == c && isPrefixB ps cs

/-- Boolean substring (contiguous infix) test on character lists. -/
def isInfixB (pat : List Char) : List Char → Bool
  | [] => isPrefixB pat []
  | c :: cs => isPrefixB pat (c :: cs) || isInfixB pat cs

/-- Case-sensitive substring test (models an unanchored, `i`-less regex
alternative such as `/Listening/`). -/
def containsSub (msg pat : String) : Bool :=
  isInfixB pat.toList msg.toList

/-- Case-insensitive substring test (models an unanchored regex alternative
under the `i` flag); `pat` is given lower-case. -/
def ciContains (msg pat : String) : Bool :=
  isInfixB pat.toList (lcList msg.toList)

/-- Case-insensitive suffix test (models `/OK$/i`); `pat` is given
lower-case. -/
def ciEndsWith (msg pat : String) : Bool :=
  isPrefixB pat.toList.reverse (lcList msg.toList).reverse

/-- Case-sensitive prefix test (models `/^FATAL:/`). -/
def startsWithB (msg pat : String) : Bool :=
  isPrefixB pat.toList msg.toList

/-- Severity rule 1 of `log` (src line 38): `/FATAL:|error/i`. -/
def errSev (msg : String) : Bool :=
  ciContains msg "fatal:" || ciContains msg "error"

/-- Severity rule 2 of `log` (src line 39):
`/OK$|loaded|configured|completed|Listening|available/i`. -/
def okSev (msg : String) : Bool :=
  ciEndsWith msg "ok" || ciContains msg "loaded" || ciContains msg "configured" ||
    ciContains msg "completed" || ciContains msg "listening" || ciContains msg "available"

/-- Severity rule 3 of `log` (src line 40): `/warn|requires|not available/i`. -/
def warnSev (msg : String) : Bool :=
  ciContains msg "warn" || ciContains msg "requires" || ciContains msg "not available"

/-- The severity cascade of `log` (src lines 37-42): ordered if/else chain,
first match wins, defaulting to `log-info`. -/
def severity (msg : String) : String :=
  if errSev msg then "log-err"
  else if okSev msg then "log-ok"
  else if warnSev msg then "log-warn"
  else "log-info"

/-- The effective severity of a `log(msg, cls?)` call: an explicit `cls`
argument bypasses pattern matching (src line 37). -/
def effSeverity (cls : Option String) (msg : String) : String :=
  match cls with
  | some c => c
  | none => severity msg

/-- Connection-established trigger of `Module.printErr` (src line 213):
`/new QUIC connection|handshake completed|connection established/i`. -/
def estPat (t : String) : Bool :=
  ciContains t "new quic connection" || ciContains t "handshake completed" ||
    ciContains t "connection established"

/-- Connection-closed trigger of `Module.printErr` (src line 223):
`/connection closed|connection timeout|draining/i`. -/
def closePat (t : String) : Bool :=
  ciContains t "connection closed" || ciContains t "connection timeout" ||
    ciContains t "draining"

/-- Listening trigger of `Module.printErr` (src line 227):
`/Listening|Waiting for QUIC/` (case-sensitive). -/
def listenPat (t : String) : Bool :=
  containsSub t "Listening" || containsSub t "Waiting for QUIC"

/-- Fatal trigger of `Module.printErr` (src line 232): `/^FATAL:/`. -/
def fatalPat (t : String) : Bool :=
  startsWithB t "FATAL:"

/-- One appended log line: its text and the CSS severity class it was
rendered with (`log-err` / `log-ok` / `log-warn` / `log-info`). -/
structure LogEntry where
  text : String
  sev : String
  deriving DecidableEq

/-- The mutable page state touched by `src/quic.ts`: the module-global
counters, the DOM sinks (status pill, loading overlay, badge display, log
container, start button), the external badge, and the list of auxiliary-view
spawn requests issued via `window.open` (recorded in request order, tagged
with the `conn=` ordinal). `started` records whether `startServer` has
installed the `Module` callbacks and appended the script tag;
`moduleLoadAttempted` records whether a module load was ever requested. -/
structure PageState where
  sab : Bool
  coi : Bool
  directSockets : Bool
  badgingSupported : Bool
  connectionCount : Int
  lineCount : Nat
  logEntries : List LogEntry
  btnStartDisabled : Bool
  statusText : String
  statusCls : String
  loadingActive : Bool
  activeGlow : Bool
  started : Bool
  moduleLoadAttempted : Bool
  badgeShown : Bool
  badgeValue : Int
  extBadge : Option Int
  spawns : List Int
  deriving DecidableEq

/-- The `log` function (src lines 36-57): classify severity (unless the
caller supplied one), append one line to the log, bump the line counter. -/
def appendLog (s : PageState) (cls : Option String) (msg : String) : PageState :=
  { s with logEntries := s.logEntries ++ [⟨msg, effSeverity cls msg⟩],
           lineCount := s.lineCount + 1 }

/-- The `setStatus` function (src lines 31-34). -/
def setStatus (s : PageState) (text cls : String) : PageState :=
  { s with statusText := text, statusCls := cls }

/-- The `updateBadge` function (src lines 16-29): store the new count, set
the badge display text, show the badge iff the count is positive, and (when
the Badging API is supported) set the external badge to the count when
positive, else clear it; external failures are swallowed. The assignments
run synchronously before the first `await`. -/
def updateBadge (s : PageState) (count : Int) : PageState :=
  { s with connectionCount := count,
           badgeValue := count,
           badgeShown := decide (0 < count),
           extBadge := if s.badgingSupported then
               (if 0 < count then some count else none)
             else s.extBadge }

/-- The body of `Module.printErr` (src lines 210-236): log the line, then run
the four independent trigger tests in source order. The connection-established
branch increments the counter via `updateBadge`, logs a `Connection #n`
notice (the counter is already incremented when read), and requests one
auxiliary view tagged with the post-increment ordinal. The close branch
decrements floored at 0. The listening branch sets the running status and
hides the loading overlay. The fatal branch sets the error status. -/
def processErrLine (s : PageState) (t : String) : PageState :=
  let s1 := appendLog s none t
  let s2 :=
    if estPat t then
      let sInc := updateBadge s1 (s1.connectionCount + 1)
      let sLog := appendLog sInc (some "log-ok")
        ("Connection #" ++ toString sInc.connectionCount ++ " — badge updated")
      { sLog with spawns := sLog.spawns ++ [sInc.connectionCount] }
    else s1
  let s3 := if closePat t then updateBadge s2 (max 0 (s2.connectionCount - 1)) else s2
  let s4 :=
    if listenPat t then
      { setStatus s3 "running — port 4433" "status-running" with
          loadingActive := false, activeGlow := true }
    else s3
  if fatalPat t then
    { setStatus s4 "error" "status-error" with loadingActive := false }
  else s4

/-- The external events the page reacts to after initialization: the two
button clicks, the module script's load / error callbacks, the module's two
text channels, and its abort callback. -/
inductive Event where
  | clickStart
  | clickClear
  | scriptLoaded
  | scriptError
  | printLine (t : String)
  | printErrLine (t : String)
  | abortSignal (w : String)
  deriving DecidableEq

/-- One step of the page. A click on a disabled start button fires nothing
(the browser suppresses clicks on disabled controls). The `Module` callbacks
(`print`, `printErr`, `onAbort`) and the script callbacks exist only after
`startServer` installed them, so before `started` those events are no-ops.
`clickStart` with an enabled button runs `startServer` (src lines 200-259):
disable the button, set the loading status, show the overlay, log, install
the callbacks and append the script tag (a module-load attempt).
`scriptError` is `script.onerror` (src lines 252-257): log, set the failed
status, hide the overlay, re-enable the start button. `abortSignal` is
`Module.onAbort` (src lines 240-244). `clickClear` is `clearLog`
(src lines 59-63). -/
def step (s : PageState) (e : Event) : PageState :=
  match e with
  | .clickStart =>
      if s.btnStartDisabled then s
      else
        let s1 := { s with btnStartDisabled := true }
        let s2 := setStatus s1 "loading..." "status-loading"
        let s3 := { s2 with loadingActive := true }
        let s4 := appendLog s3 none "Loading QUIC echo server..."
        { s4 with started := true, moduleLoadAttempted := true }
  | .clickClear => { s with logEntries := [], lineCount := 0 }
  | .scriptLoaded =>
      if s.started then appendLog s none "Emscripten JS loaded, spawning worker..." else s
  | .scriptError =>
      if s.started then
        let s1 := appendLog s (some "log-err") "Failed to load quic_echo_server.js"
        let s2 := setStatus s1 "load failed" "status-error"
        { s2 with loadingActive := false, btnStartDisabled := false }
      else s
  | .printLine t => if s.started then appendLog s none t else s
  | .printErrLine t => if s.started then processErrLine s t else s
  | .abortSignal w =>
      if s.started then
        let s1 := appendLog s (some "log-err") ("Module aborted: " ++ w)
        let s2 := setStatus s1 "aborted" "status-error"
        { s2 with loadingActive := false }
      else s

/-- The page state right after the top-level code of `src/quic.ts` ran:
`checkEnvironment` (src lines 114-161) logs the four probe results, then — if
the SharedArrayBuffer probe failed — logs the COOP/COEP hint, sets the
missing-capability status and disables the start button, else logs
`Ready to start.`; then `detectCapabilities` (src lines 164-197) logs the
capability tally (`capsOk` of its 20 probes). Modelled from the spec: the
markup (`quic.html`, not under `src/`) supplies the initial widget states —
per §4.3 the session starts Idle with the start control operable and per
§4.4 the badge starts hidden at count 0 — so the pre-script state has the
button enabled, the badge hidden, empty status text and an empty log. -/
def initState (sab coi ds badging : Bool) (capsOk : Nat) : PageState :=
  let s0 : PageState :=
    { sab := sab, coi := coi, directSockets := ds, badgingSupported := badging,
      connectionCount := 0, lineCount := 0, logEntries := [],
      btnStartDisabled := false, statusText := "", statusCls := "",
      loadingActive := false, activeGlow := false, started := false,
      moduleLoadAttempted := false, badgeShown := false, badgeValue := 0,
      extBadge := none, spawns := [] }
  let s1 := appendLog s0 none
    ("SharedArrayBuffer: " ++ (if sab then "available" else "missing"))
  let s2 := appendLog s1 none
    ("Cross-Origin Isolated: " ++ (if coi then "yes" else "no"))
  let s3 := appendLog s2 none
    ("Direct Sockets: " ++ (if ds then "available" else "unavailable"))
  let s4 := appendLog s3 none
    ("Badging API: " ++ (if badging then "available" else "unavailable"))
  let s5 :=
    if sab then appendLog s4 (some "log-ok") "Ready to start."
    else
      let e1 := appendLog s4 (some "log-err")
        "Need COOP/COEP headers or IWA context for SharedArrayBuffer"
      let e2 := setStatus e1 "missing SharedArrayBuffer" "status-error"
      { e2 with btnStartDisabled := true }
  appendLog s5 (some "log-ok")
    ("IWA capabilities: " ++ toString capsOk ++ "/20 APIs detected")

/-- Run the page from a state through a sequence of events. -/
def run (s : PageState) (es : List Event) : PageState :=
  es.foldl step s

/-- The status pill, loading overlay, start button, glow, startedness and
load-attempt flags are untouched by `log`. -/
lemma appendLog_fields (s : PageState) (cls : Option String) (msg : String) :
    (appendLog s cls msg).btnStartDisabled = s.btnStartDisabled ∧
    (appendLog s cls msg).started = s.started ∧
    (appendLog s cls msg).moduleLoadAttempted = s.moduleLoadAttempted := by
  simp [appendLog]

/-- `Module.printErr` never touches the start button, the startedness flag or
the load-attempt flag: none of its four trigger branches writes them. -/
lemma processErrLine_fields (s : PageState) (t : String) :
    (processErrLine s t).btnStartDisabled = s.btnStartDisabled ∧
    (processErrLine s t).started = s.started ∧
    (processErrLine s t).moduleLoadAttempted = s.moduleLoadAttempted := by
  cases h1 : estPat t <;> cases h2 : closePat t <;> cases h3 : listenPat t <;>
    cases h4 : fatalPat t <;>
    simp [processErrLine, appendLog, updateBadge, setStatus, h1, h2, h3, h4]

/-- Stepping preserves any state predicate that every event preserves. -/
lemma run_inv {P : PageState → Prop} (hstep : ∀ s e, P s → P (step s e)) :
    ∀ (es : List Event) (s : PageState), P s → P (run s es)
  | [], _, h => h
  | e :: es, s, h => run_inv hstep es (step s e) (hstep s e h)

/-- With the start button disabled and the module callbacks never installed,
every event is a no-op for the button, the startedness flag and the
load-attempt flag: a click on a disabled button fires nothing, and the
script / module callbacks do not exist yet. -/
lemma gate_inv_step (s : PageState) (e : Event)
    (h : s.btnStartDisabled = true ∧ s.started = false ∧ s.moduleLoadAttempted = false) :
    (step s e).btnStartDisabled = true ∧ (step s e).started = false ∧
      (step s e).moduleLoadAttempted = false := by
  obtain ⟨h1, h2, h3⟩ := h
  cases e <;> simp [step, h1, h2, h3, appendLog, setStatus]


/-- C1: If the SharedArrayBuffer probe is false at initialization, the start
control is disabled and stays disabled over every event sequence, and no
module load is ever attempted, whatever the other probes report; conversely,
with the probe true, clicking start attempts the module load regardless of
every other probe's value, so no other probe blocks startup. -/
theorem c1_shared_memory_gate (coi ds badging coiB dsB badgingB : Bool)
    (capsOk capsOkB : Nat) (es : List Event) :
    ((run (initState false coi ds badging capsOk) es).btnStartDisabled = true ∧
     (run (initState false coi ds badging capsOk) es).moduleLoadAttempted = false) ∧
    (step (initState true coiB dsB badgingB capsOkB) Event.clickStart).moduleLoadAttempted
      = true := by
  constructor
  · have hinit : (initState false coi ds badging capsOk).btnStartDisabled = true ∧
        (initState false coi ds badging capsOk).started = false ∧
        (initState false coi ds badging capsOk).moduleLoadAttempted = false := by
      simp [initState, appendLog, setStatus]
    have h := run_inv gate_inv_step es (initState false coi ds badging capsOk) hinit
    exact ⟨h.1, h.2.2⟩
  · simp [step, initState, appendLog, setStatus]

/-- C2 counterexample: the claim fails on the code. A fatal diagnostic puts
the session in Error (status "error"), yet a subsequent listening trigger is
not ignored: it changes the status display back to Running. -/
theorem c2_error_state_not_terminal_cex :
    (run (initState true true true true 20)
       [Event.clickStart, Event.printErrLine "FATAL: crash"]).statusText = "error" ∧
    (run (initState true true true true 20)
       [Event.clickStart, Event.printErrLine "FATAL: crash",
        Event.printErrLine "Listening on 4433"]).statusText = "running — port 4433" ∧
    (run (initState true true true true 20)
       [Event.clickStart, Event.printErrLine "FATAL: crash",
        Event.printErrLine "Listening on 4433"]).statusCls = "status-running" :=
  ⟨by decide, by decide, by decide⟩

/-- C2 amended: trigger handling is not guarded by the session state, so
Error/Aborted are not terminal: from every started state — whatever its
status, including the Error and Aborted statuses — a diagnostic line matching
the listening pattern (and not the fatal pattern) sets the status display
back to Running. -/
theorem c2_listening_overrides_error (s : PageState) (t : String)
    (hs : s.started = true) (hl : listenPat t = true) (hf : fatalPat t = false) :
    (step s (Event.printErrLine t)).statusText = "running — port 4433" ∧
    (step s (Event.printErrLine t)).statusCls = "status-running" := by
  cases h1 : estPat t <;> cases h2 : closePat t <;>
    simp [step, hs, processErrLine, appendLog, updateBadge, setStatus, h1, h2, hl, hf]

/-- C2 witness: the amended theorem applied in the Error state reached after
a fatal diagnostic. -/
theorem c2_listening_overrides_error_witness :
    (step (run (initState true true true true 20)
        [Event.clickStart, Event.printErrLine "FATAL: crash"])
      (Event.printErrLine "Listening on 4433")).statusText = "running — port 4433" :=
  (c2_listening_overrides_error
    (run (initState true true true true 20)
      [Event.clickStart, Event.printErrLine "FATAL: crash"])
    "Listening on 4433" (by decide) (by decide) (by decide)).1

/-- C3: the script-load-failure callback is the only event that ever turns
the start button from disabled to enabled, and (once startup installed the
callbacks) it does re-enable it; every other event — fatal diagnostic,
module abort, listening and connection triggers, clicks, script load —
leaves a disabled start button disabled. -/
theorem c3_only_load_failure_reenables :
    (∀ (s : PageState) (e : Event), s.btnStartDisabled = true →
        (step s e).btnStartDisabled = false → e = Event.scriptError) ∧
    (∀ s : PageState, s.started = true →
        (step s Event.scriptError).btnStartDisabled = false) := by
  constructor
  · intro s e h1 h2
    cases e <;> first
      | rfl
      | (cases hst : s.started <;>
          simp [step, hst, h1, appendLog, setStatus, processErrLine_fields] at h2)
  · intro s hs
    simp [step, hs, appendLog, setStatus]

/-- C3 witness: in the started state right after clicking start the button is
disabled; a script-load failure re-enables it, and the only-path implication
is discharged at that same concrete state and event. -/
theorem c3_only_load_failure_reenables_witness :
    Event.scriptError = Event.scriptError ∧
    (step (run (initState true true true true 20) [Event.clickStart])
        Event.scriptError).btnStartDisabled = false :=
  ⟨c3_only_load_failure_reenables.1
      (run (initState true true true true 20) [Event.clickStart])
      Event.scriptError (by decide) (by decide),
   c3_only_load_failure_reenables.2
      (run (initState true true true true 20) [Event.clickStart]) (by decide)⟩

/-- `Module.printErr` keeps the connection counter non-negative: the
established branch adds one and the close branch floors at 0. -/
lemma processErrLine_count_nonneg (s : PageState) (t : String)
    (h : 0 ≤ s.connectionCount) : 0 ≤ (processErrLine s t).connectionCount := by
  cases h1 : estPat t <;> cases h2 : closePat t <;> cases h3 : listenPat t <;>
    cases h4 : fatalPat t <;>
    simp [processErrLine, appendLog, updateBadge, setStatus, h1, h2, h3, h4] <;>
    first
      | exact le_max_left 0 _
      | omega

/-- No event drives the connection counter negative. -/
lemma step_count_nonneg (s : PageState) (e : Event)
    (h : 0 ≤ s.connectionCount) : 0 ≤ (step s e).connectionCount := by
  cases e with
  | clickStart =>
      cases hb : s.btnStartDisabled <;> simp [step, hb, appendLog, setStatus] <;> exact h
  | clickClear => simpa [step] using h
  | scriptLoaded =>
      cases hst : s.started <;> simp [step, hst, appendLog] <;> exact h
  | scriptError =>
      cases hst : s.started <;> simp [step, hst, appendLog, setStatus] <;> exact h
  | printLine t =>
      cases hst : s.started <;> simp [step, hst, appendLog] <;> exact h
  | printErrLine t =>
      cases hst : s.started
      · simpa [step, hst] using h
      · simpa [step, hst] using processErrLine_count_nonneg s t h
  | abortSignal w =>
      cases hst : s.started <;> simp [step, hst, appendLog, setStatus] <;> exact h

/-- C4: from every initial state, after every event sequence — in particular
every sequence of increment and decrement triggers — the connection counter
is non-negative; and a decrement trigger processed at counter 0 leaves the
counter at 0. -/
theorem c4_count_never_negative :
    (∀ (sab coi ds badging : Bool) (capsOk : Nat) (es : List Event),
        0 ≤ (run (initState sab coi ds badging capsOk) es).connectionCount) ∧
    (∀ (s : PageState) (t : String), s.started = true → s.connectionCount = 0 →
        estPat t = false → closePat t = true →
        (step s (Event.printErrLine t)).connectionCount = 0) := by
  constructor
  · intro sab coi ds badging capsOk es
    have hinit : 0 ≤ (initState sab coi ds badging capsOk).connectionCount := by
      cases sab <;> simp [initState, appendLog, setStatus]
    exact run_inv step_count_nonneg es _ hinit
  · intro s t hs hc h1 h2
    cases h3 : listenPat t <;> cases h4 : fatalPat t <;>
      simp [step, hs, processErrLine, appendLog, updateBadge, setStatus,
        h1, h2, h3, h4, hc]

/-- C4 witness: the non-negativity bound on a concrete run, and a decrement
trigger at counter 0 leaving it at 0 in the concrete started state reached
after clicking start. -/
theorem c4_count_never_negative_witness :
    0 ≤ (run (initState true true true true 20)
        [Event.clickStart, Event.printErrLine "connection closed"]).connectionCount ∧
    (step (run (initState true true true true 20) [Event.clickStart])
        (Event.printErrLine "connection closed")).connectionCount = 0 :=
  ⟨c4_count_never_negative.1 true true true true 20
      [Event.clickStart, Event.printErrLine "connection closed"],
   c4_count_never_negative.2
      (run (initState true true true true 20) [Event.clickStart])
      "connection closed" (by decide) (by decide) (by decide) (by decide)⟩

/-- The badge display mirrors the counter: visible exactly when the counter
is positive, and the displayed value tracks the counter. `updateBadge` is
the only writer of these fields and writes them together. -/
def BadgeInv (s : PageState) : Prop :=
  s.badgeShown = decide (0 < s.connectionCount) ∧ s.badgeValue = s.connectionCount

/-- `Module.printErr` preserves the badge-display invariant: both of its
counter writes go through `updateBadge`, which writes the three fields
consistently. -/
lemma processErrLine_badgeInv (s : PageState) (t : String)
    (h : BadgeInv s) : BadgeInv (processErrLine s t) := by
  obtain ⟨h1, h2⟩ := h
  cases he : estPat t <;> cases hc : closePat t <;> cases hl : listenPat t <;>
    cases hf : fatalPat t <;>
    simp [BadgeInv, processErrLine, appendLog, updateBadge, setStatus,
      he, hc, hl, hf, h1, h2]

/-- Every event preserves the badge-display invariant. -/
lemma step_badgeInv (s : PageState) (e : Event) (h : BadgeInv s) :
    BadgeInv (step s e) := by
  obtain ⟨h1, h2⟩ := h
  cases e with
  | clickStart =>
      cases hb : s.btnStartDisabled <;>
        simp [BadgeInv, step, hb, appendLog, setStatus, h1, h2]
  | clickClear => simp [BadgeInv, step, h1, h2]
  | scriptLoaded =>
      cases hst : s.started <;> simp [BadgeInv, step, hst, appendLog, h1, h2]
  | scriptError =>
      cases hst : s.started <;> simp [BadgeInv, step, hst, appendLog, setStatus, h1, h2]
  | printLine t =>
      cases hst : s.started <;> simp [BadgeInv, step, hst, appendLog, h1, h2]
  | printErrLine t =>
      cases hst : s.started
      · simpa [step, hst] using ⟨h1, h2⟩
      · simpa [step, hst] using processErrLine_badgeInv s t ⟨h1, h2⟩
  | abortSignal w =>
      cases hst : s.started <;> simp [BadgeInv, step, hst, appendLog, setStatus, h1, h2]

/-- C5: in every reachable state the badge is visible exactly when the
connection counter is positive and, when visible, displays exactly the
counter; and every badge update performed with the Badging API available
sets the external badge to the new count when it is positive and clears it
when it is zero. -/
theorem c5_badge_mirrors_count :
    (∀ (sab coi ds badging : Bool) (capsOk : Nat) (es : List Event),
        ((run (initState sab coi ds badging capsOk) es).badgeShown = true ↔
          0 < (run (initState sab coi ds badging capsOk) es).connectionCount) ∧
        ((run (initState sab coi ds badging capsOk) es).badgeShown = true →
          (run (initState sab coi ds badging capsOk) es).badgeValue =
            (run (initState sab coi ds badging capsOk) es).connectionCount)) ∧
    (∀ (s : PageState) (c : Int), s.badgingSupported = true →
        (updateBadge s c).extBadge = if 0 < c then some c else none) := by
  constructor
  · intro sab coi ds badging capsOk es
    have hinit : BadgeInv (initState sab coi ds badging capsOk) := by
      cases sab <;> simp [BadgeInv, initState, appendLog, setStatus]
    have h := run_inv step_badgeInv es _ hinit
    exact ⟨by rw [h.1]; exact decide_eq_true_iff, fun _ => h.2⟩
  · intro s c hb
    simp [updateBadge, hb]

/-- C5 witness: after one established connection the badge is visible with
value 1 = counter; and a concrete badge update to 1 with the Badging API
available sets the external badge to 1. -/
theorem c5_badge_mirrors_count_witness :
    ((run (initState true true true true 20)
        [Event.clickStart, Event.printErrLine "new QUIC connection"]).badgeValue =
      (run (initState true true true true 20)
        [Event.clickStart, Event.printErrLine "new QUIC connection"]).connectionCount) ∧
    (updateBadge (initState true true true true 20) 1).extBadge =
      (if (0 : Int) < 1 then some 1 else none) :=
  ⟨(c5_badge_mirrors_count.1 true true true true 20
      [Event.clickStart, Event.printErrLine "new QUIC connection"]).2 (by decide),
   c5_badge_mirrors_count.2 (initState true true true true 20) 1 (by decide)⟩

/-- C6: a connection-established trigger (on a line that does not also match
the close pattern) increments the counter by exactly 1 and appends exactly
one auxiliary-view spawn request tagged with the post-increment counter
value — the connection's 1-based ordinal; and in Scenario C, three
established lines followed by one closed line leave the counter at 2 with
exactly the three spawn requests 1, 2, 3 issued. -/
theorem c6_established_increments_and_spawns :
    (∀ (s : PageState) (t : String), s.started = true → estPat t = true →
        closePat t = false →
        (step s (Event.printErrLine t)).connectionCount = s.connectionCount + 1 ∧
        (step s (Event.printErrLine t)).spawns = s.spawns ++ [s.connectionCount + 1]) ∧
    ((run (initState true true true true 20)
        [Event.clickStart, Event.printErrLine "new QUIC connection",
         Event.printErrLine "new QUIC connection",
         Event.printErrLine "new QUIC connection",
         Event.printErrLine "connection closed"]).connectionCount = 2 ∧
     (run (initState true true true true 20)
        [Event.clickStart, Event.printErrLine "new QUIC connection",
         Event.printErrLine "new QUIC connection",
         Event.printErrLine "new QUIC connection",
         Event.printErrLine "connection closed"]).spawns = [1, 2, 3]) := by
  constructor
  · intro s t hs he hc
    cases hl : listenPat t <;> cases hf : fatalPat t <;>
      simp [step, hs, processErrLine, appendLog, updateBadge, setStatus, he, hc, hl, hf]
  · exact ⟨by decide, by decide⟩

/-- C6 witness: the per-trigger statement applied to the started state right
after clicking start, on a handshake-completed line. -/
theorem c6_established_increments_and_spawns_witness :
    (step (run (initState true true true true 20) [Event.clickStart])
        (Event.printErrLine "handshake completed")).connectionCount =
      (run (initState true true true true 20) [Event.clickStart]).connectionCount + 1 ∧
    (step (run (initState true true true true 20) [Event.clickStart])
        (Event.printErrLine "handshake completed")).spawns =
      (run (initState true true true true 20) [Event.clickStart]).spawns ++
        [(run (initState true true true true 20) [Event.clickStart]).connectionCount + 1] :=
  c6_established_increments_and_spawns.1
    (run (initState true true true true 20) [Event.clickStart])
    "handshake completed" (by decide) (by decide) (by decide)

/-- C7: trigger tests are independent and non-exclusive — the single
diagnostic line "Listening: connection established" matches both the
listening pattern and the connection-established pattern, and processing it
once both increments the counter (issuing its view-spawn request) and sets
the session status to Running. -/
theorem c7_single_line_fires_both_triggers :
    listenPat "Listening: connection established" = true ∧
    estPat "Listening: connection established" = true ∧
    (run (initState true true true true 20)
       [Event.clickStart,
        Event.printErrLine "Listening: connection established"]).connectionCount = 1 ∧
    (run (initState true true true true 20)
       [Event.clickStart,
        Event.printErrLine "Listening: connection established"]).spawns = [1] ∧
    (run (initState true true true true 20)
       [Event.clickStart,
        Event.printErrLine "Listening: connection established"]).statusText =
      "running — port 4433" ∧
    (run (initState true true true true 20)
       [Event.clickStart,
        Event.printErrLine "Listening: connection established"]).statusCls =
      "status-running" :=
  ⟨by decide, by decide, by decide, by decide, by decide, by decide⟩

/-- C8 counterexample: the claim fails on the code. Processing the single
diagnostic line "connection established" appends two log entries, not
exactly one: the line itself and the "Connection #1" notice emitted by the
established branch. -/
theorem c8_two_entries_cex :
    ((run (initState true true true true 20)
        [Event.clickStart, Event.printErrLine "connection established"]).logEntries).length
      =
      ((run (initState true true true true 20) [Event.clickStart]).logEntries).length + 2 ∧
    ((run (initState true true true true 20)
        [Event.clickStart, Event.printErrLine "connection established"]).logEntries).length
      ≠
      ((run (initState true true true true 20) [Event.clickStart]).logEntries).length + 1 :=
  ⟨by decide, by decide⟩

/-- C8 amended: processing a line appends the line's own LogEntry
synchronously, in arrival order, with no buffering or reordering; a
diagnostic line firing the connection-established trigger additionally
appends exactly one extra LogEntry (the connection notice), so such lines
emit two entries and every other line — on either channel — exactly one. -/
theorem c8_log_emission_per_line (s : PageState) (t : String) (hs : s.started = true) :
    (step s (Event.printErrLine t)).logEntries =
      s.logEntries ++ ⟨t, severity t⟩ ::
        (if estPat t then
          [⟨"Connection #" ++ toString (s.connectionCount + 1) ++ " — badge updated",
            "log-ok"⟩]
         else []) ∧
    (step s (Event.printLine t)).logEntries = s.logEntries ++ [⟨t, severity t⟩] := by
  constructor
  · cases he : estPat t <;> cases hc : closePat t <;> cases hl : listenPat t <;>
      cases hf : fatalPat t <;>
      simp [step, hs, processErrLine, appendLog, updateBadge, setStatus, effSeverity,
        he, hc, hl, hf]
  · simp [step, hs, appendLog, effSeverity]

/-- C8 witness: the emission shape evaluated in the started state right
after clicking start, on a connection-established line. -/
theorem c8_log_emission_per_line_witness :
    (step (run (initState true true true true 20) [Event.clickStart])
        (Event.printErrLine "connection established")).logEntries =
      (run (initState true true true true 20) [Event.clickStart]).logEntries ++
        ⟨"connection established", severity "connection established"⟩ ::
          (if estPat "connection established" then
            [⟨"Connection #" ++
                toString ((run (initState true true true true 20)
                  [Event.clickStart]).connectionCount + 1) ++ " — badge updated",
              "log-ok"⟩]
           else []) :=
  (c8_log_emission_per_line
    (run (initState true true true true 20) [Event.clickStart])
    "connection established" (by decide)).1

/-- The ordered severity rule list as the spec words it: fatal/error first,
then success markers, then warnings. This definition follows the spec's
description (spec §4.2 rule 1) for comparison with the source's `severity`
cascade; it is not a translation of the source. -/
def severityRules : List ((String → Bool) × String) :=
  [(errSev, "log-err"), (okSev, "log-ok"), (warnSev, "log-warn")]

/-- First-match-wins severity assignment over the ordered rule list,
defaulting to `log-info` when no rule matches; written from the spec's
words (spec §4.2 rule 1) for the refinement comparison. -/
def severitySpecFirstMatch (msg : String) : String :=
  match severityRules.find? (fun r => r.1 msg) with
  | some r => r.2
  | none => "log-info"

/-- C9: the source's severity cascade is exactly first-match-wins over the
ordered rule list fatal/error, success markers, warnings, with default
`log-info`; a caller-supplied explicit severity bypasses pattern matching
and is used verbatim; and a line matching no rule is classified
`log-info`. -/
theorem c9_severity_first_match :
    (∀ msg : String, severity msg = severitySpecFirstMatch msg) ∧
    (∀ (msg cls : String), effSeverity (some cls) msg = cls) ∧
    (∀ msg : String, errSev msg = false → okSev msg = false → warnSev msg = false →
        severity msg = "log-info") := by
  refine ⟨fun msg => ?_, fun msg cls => rfl, fun msg h1 h2 h3 => ?_⟩
  · cases h1 : errSev msg <;> cases h2 : okSev msg <;> cases h3 : warnSev msg <;>
      simp [severity, severitySpecFirstMatch, severityRules, List.find?, h1, h2, h3]
  · simp [severity, h1, h2, h3]

/-- C9 witness: the refinement and bypass evaluated on concrete lines, and
the default case on a line matching no rule. -/
theorem c9_severity_first_match_witness :
    severity "FATAL: handshake error" = severitySpecFirstMatch "FATAL: handshake error" ∧
    effSeverity (some "log-ok") "FATAL: handshake error" = "log-ok" ∧
    severity "hello world" = "log-info" :=
  ⟨c9_severity_first_match.1 "FATAL: handshake error",
   c9_severity_first_match.2.1 "FATAL: handshake error" "log-ok",
   c9_severity_first_match.2.2 "hello world" (by decide) (by decide) (by decide)⟩

/-- C10: lines delivered on the standard channel (`Module.print`) only
append one LogEntry: for every text — including text matching a trigger
pattern — the connection counter, status pill, start button, loading
overlay, badge state, external badge and spawn requests are unchanged. -/
theorem c10_standard_channel_fires_no_triggers (s : PageState) (t : String)
    (hs : s.started = true) :
    (step s (Event.printLine t)).logEntries = s.logEntries ++ [⟨t, severity t⟩] ∧
    (step s (Event.printLine t)).connectionCount = s.connectionCount ∧
    (step s (Event.printLine t)).statusText = s.statusText ∧
    (step s (Event.printLine t)).statusCls = s.statusCls ∧
    (step s (Event.printLine t)).btnStartDisabled = s.btnStartDisabled ∧
    (step s (Event.printLine t)).loadingActive = s.loadingActive ∧
    (step s (Event.printLine t)).badgeShown = s.badgeShown ∧
    (step s (Event.printLine t)).badgeValue = s.badgeValue ∧
    (step s (Event.printLine t)).extBadge = s.extBadge ∧
    (step s (Event.printLine t)).spawns = s.spawns := by
  simp [step, hs, appendLog, effSeverity]

/-- C10 witness: a standard-channel line whose text matches both the
established and listening trigger patterns still changes nothing but the
log, evaluated in the started state right after clicking start. -/
theorem c10_standard_channel_fires_no_triggers_witness :
    estPat "Listening: connection established" = true ∧
    (step (run (initState true true true true 20) [Event.clickStart])
        (Event.printLine "Listening: connection established")).connectionCount =
      (run (initState true true true true 20) [Event.clickStart]).connectionCount ∧
    (step (run (initState true true true true 20) [Event.clickStart])
        (Event.printLine "Listening: connection established")).statusText =
      (run (initState true true true true 20) [Event.clickStart]).statusText :=
  ⟨by decide,
   (c10_standard_channel_fires_no_triggers
      (run (initState true true true true 20) [Event.clickStart])
      "Listening: connection established" (by decide)).2.1,
   (c10_standard_channel_fires_no_triggers
      (run (initState true true true true 20) [Event.clickStart])
      "Listening: connection established" (by decide)).2.2.1⟩
